import Mathlib

/-!
Shallow embedding of the recording / audio-video synchronization core of the
meet-teams-bot repository (src/src/recording/ScreenRecorder.ts and the
transcription word-poster), together with theorems settling the spec claims.

Wall-clock times are modelled as integers (milliseconds, as produced by
Date.now()); media timestamps and durations are rationals (seconds, the
code's floating-point values modelled exactly).
-/

namespace MeetTeamsBot

/-- Constant from ScreenRecorder.ts: TRANSCRIPTION_CHUNK_DURATION = 3600 (seconds). -/
def TRANSCRIPTION_CHUNK_DURATION : ℚ := 3600

/-- Constant from ScreenRecorder.ts: AUDIO_SAMPLE_RATE = 44_100 (Hz). -/
def AUDIO_SAMPLE_RATE : ℕ := 44100

/-- Constant from ScreenRecorder.ts: FLASH_SCREEN_SLEEP_TIME = 6000 (ms). -/
def FLASH_SCREEN_SLEEP_TIME : ℤ := 6000

/-! ## C1: exit classification (setupProcessMonitoring, lines 381-402) -/

/-- Observable effect of the exit handler installed by setupProcessMonitoring:
whether handleSuccessfulRecording (post-processing) runs, the value of
isRecording afterwards, and whether the 'stopped' event is emitted. -/
structure ExitOutcome where
  ranPostProcessing : Bool
  isRecordingAfter : Bool
  emittedStopped : Bool
deriving Repr, DecidableEq

/-- The isSuccessful classification of the FFmpeg exit handler:
code === 0 || (gracePeriodActive && (code === 255 || code === 143)). -/
def isSuccessfulExit (code : ℤ) (gracePeriodActive : Bool) : Bool :=
  code == 0 || (gracePeriodActive && (code == 255 || code == 143))

/-- The exit handler: post-processing runs exactly when the exit is classified
successful; afterwards isRecording is set to false and 'stopped' is emitted
(handleSuccessfulRecording catches its own errors, so both always happen). -/
def onFFmpegExit (code : ℤ) (gracePeriodActive : Bool) : ExitOutcome :=
  { ranPostProcessing := isSuccessfulExit code gracePeriodActive
  , isRecordingAfter := false
  , emittedStopped := true }

/-! ## C2, C3, C5: trim-plan construction (syncAndMergeFiles, video mode) -/

/-- Error codes thrown by syncAndMergeFiles (from src/types). -/
inductive JoinErrorCode where
  | BotRemovedTooEarly
deriving Repr, DecidableEq

/-- Result of calculateVideoOffset: tone timestamps (seconds) in the raw
video and the raw audio. -/
structure SyncResult where
  videoTimestamp : ℚ
  audioTimestamp : ℚ
deriving Repr, DecidableEq

/-- audioPadding (line 689-690): syncResult.videoTimestamp - syncResult.audioTimestamp. -/
def audioPaddingOf (sync : SyncResult) : ℚ :=
  sync.videoTimestamp - sync.audioTimestamp

/-- The trim plan a video-mode run computes: seconds to discard from the
start of the merged file, and seconds to retain. -/
structure TrimPlan where
  trimStart : ℚ
  finalDuration : ℚ
deriving Repr, DecidableEq

/-- The meetingStartTime check at the head of video-mode syncAndMergeFiles
(lines 638-664). hasMeetingStartTime is meetingStartTime > 0; otherwise
the fallback fires when now - recordingStartTime > 10000 ms, setting
meetingStartTime to now - 5000; else JoinError(BotRemovedTooEarly) is thrown.
The several Date.now() reads of the source are modelled by one `now`. -/
def resolveMeetingStartTime (meetingStartTime recordingStartTime now : ℤ) :
    Except JoinErrorCode ℤ :=
  if meetingStartTime > 0 then .ok meetingStartTime
  else if now - recordingStartTime > 10000 then .ok (now - 5000)
  else .error .BotRemovedTooEarly

/-- calcOffsetVideo (lines 667-672): videoTimestamp plus
(meetingStartTime - recordingStartTime - FLASH_SCREEN_SLEEP_TIME) / 1000. -/
def trimStartOf (videoTimestamp : ℚ) (meetingStartTime recordingStartTime : ℤ) : ℚ :=
  videoTimestamp +
    ((meetingStartTime - recordingStartTime - FLASH_SCREEN_SLEEP_TIME : ℤ) : ℚ) / 1000

/-- The trim plan of a video-mode run (lines 638-728): resolve
meetingStartTime (with fallback), compute calcOffsetVideo, and take
finalDuration = min (videoDuration - calcOffsetVideo) audioDuration, where
videoDuration is probed on raw.mp4 and audioDuration on processed.wav. -/
def makeTrimPlan (sync : SyncResult) (meetingStartTime recordingStartTime now : ℤ)
    (videoDuration audioDuration : ℚ) : Except JoinErrorCode TrimPlan :=
  (resolveMeetingStartTime meetingStartTime recordingStartTime now).map fun mst =>
    { trimStart := trimStartOf sync.videoTimestamp mst recordingStartTime
    , finalDuration :=
        min (videoDuration - trimStartOf sync.videoTimestamp mst recordingStartTime)
          audioDuration }

/-! ## C4: audio head alignment (syncAndMergeFiles lines 689-717,
addSilencePadding lines 758-828, trimAudioStart lines 830-856) -/

/-- External media-tool invocations issued by the audio-head-alignment step,
with the parameters the source passes in the argument vectors. -/
inductive FFmpegStep where
  | createSilence (sampleRate : ℕ) (channels : ℕ) (codec : String)
      (durationSeconds : ℚ) (outFile : String)
  | concatDemux (listFile : String) (codec : String) (sampleRate : ℕ)
      (channels : ℕ) (outFile : String)
  | seekReencode (input : String) (seekSeconds : ℚ) (codec : String)
      (sampleRate : ℕ) (channels : ℕ) (avoidNegativeTs : Bool) (outFile : String)
deriving Repr, DecidableEq

/-- File-system and subprocess actions of the alignment step, in order. -/
inductive FileAction where
  | runFF (step : FFmpegStep)
  | writeConcatList (path : String) (entries : List String)
  | copyFile (src dst : String)
  | deleteFile (path : String)
deriving Repr, DecidableEq

/-- Path of the ephemeral silence file (line 764). -/
def silencePath (tempDir : String) : String := tempDir ++ "/silence.wav"

/-- Path of the ephemeral concat list (line 765). -/
def concatListPath (tempDir : String) : String := tempDir ++ "/concat_list.txt"

/-- addSilencePadding: create a silence WAV of the given duration
(anullsrc mono, 44100 Hz, pcm_s16le), write the concat list, concatenate via the
concat demuxer re-encoding to pcm_s16le 44100 Hz mono, then delete the
silence file and the concat list (both exist, having just been created). -/
def addSilencePadding (tempDir inputAudioPath outputAudioPath : String)
    (paddingSeconds : ℚ) : List FileAction :=
  [ .runFF (.createSilence AUDIO_SAMPLE_RATE 1 "pcm_s16le" paddingSeconds
      (silencePath tempDir))
  , .writeConcatList (concatListPath tempDir) [silencePath tempDir, inputAudioPath]
  , .runFF (.concatDemux (concatListPath tempDir) "pcm_s16le" AUDIO_SAMPLE_RATE 1
      outputAudioPath)
  , .deleteFile (silencePath tempDir)
  , .deleteFile (concatListPath tempDir) ]

/-- trimAudioStart: seek trimSeconds into the input and re-encode to
pcm_s16le 44100 Hz mono with avoid_negative_ts=make_zero. -/
def trimAudioStart (inputAudioPath outputAudioPath : String)
    (trimSeconds : ℚ) : List FileAction :=
  [ .runFF (.seekReencode inputAudioPath trimSeconds "pcm_s16le" AUDIO_SAMPLE_RATE 1
      true outputAudioPath) ]

/-- The three-way dispatch of syncAndMergeFiles step 5 (lines 696-717):
audioPadding > 0 pads with silence, audioPadding < 0 trims
audioPadding * -1 seconds, audioPadding = 0 copies raw.wav unchanged. -/
def alignAudioHead (tempDir rawAudioPath processedAudioPath : String)
    (audioPadding : ℚ) : List FileAction :=
  if audioPadding > 0 then
    addSilencePadding tempDir rawAudioPath processedAudioPath audioPadding
  else if audioPadding < 0 then
    trimAudioStart rawAudioPath processedAudioPath (audioPadding * (-1))
  else
    [ .copyFile rawAudioPath processedAudioPath ]

/-! ## C6: live streaming fan-out (setupStreamingAudio, lines 412-429) -/

/-- The reinterpretation performed by the stdout data handler: a chunk of
bytes becomes little-endian 4-byte groups (one group per 32-bit float sample);
`new Float32Array(buffer, byteOffset, data.length / 4)` truncates the length
to an integer, so any trailing bytes beyond a multiple of 4 are not part of
any sample. -/
def streamFrameSamples : List ℕ → List (ℕ × ℕ × ℕ × ℕ)
  | b0 :: b1 :: b2 :: b3 :: rest => (b0, b1, b2, b3) :: streamFrameSamples rest
  | _ => []

/-- Bytes of a chunk left over by the reinterpretation (dropped from the
sample stream). -/
def streamDroppedBytes (chunkLen : ℕ) : ℕ := chunkLen % 4

/-! ## C7: audio chunking (createAudioChunks, lines 944-986) -/

/-- The segmenting invocation createAudioChunks issues (when it runs). -/
structure ChunkSpec where
  segmentTime : ℚ
  filePattern : String
  codec : String
  sampleRate : ℕ
  channels : ℕ
deriving Repr, DecidableEq

/-- createAudioChunks: returns none (no invocation at all) when the
speech_to_text_provider flag is unset; otherwise segments with
segment_time = min(duration, TRANSCRIPTION_CHUNK_DURATION) into files
matching `<botUuid>-%d.wav`. -/
def createAudioChunks (speechToTextProvider : Bool) (duration : ℚ)
    (botUuid : String) : Option ChunkSpec :=
  if !speechToTextProvider then none
  else some
    { segmentTime := min duration TRANSCRIPTION_CHUNK_DURATION
    , filePattern := botUuid ++ "-%d.wav"
    , codec := "pcm_s16le"
    , sampleRate := AUDIO_SAMPLE_RATE
    , channels := 1 }

/-- Modelled from the spec: the external media tool's segment muxer splits an
input of the given duration into ceil(duration / segmentTime) files (the
muxer itself is not repository code). -/
def segmentCount (duration segmentTime : ℚ) : ℤ := ⌈duration / segmentTime⌉

/-! ## C8: upload error policy (uploadAudioChunks lines 431-477,
uploadToS3 lines 479-509) -/

/-- A chunk file as the upload loop sees it: name, whether fs.existsSync
holds, and its size from fs.statSync. -/
structure ChunkFileInfo where
  name : String
  onDisk : Bool
  size : ℕ
deriving Repr, DecidableEq

/-- Per-chunk outcome of the upload loop body. -/
inductive ChunkOutcome where
  | missing
  | empty
  | uploaded (s3Key : String)
  | uploadFailed
deriving Repr, DecidableEq

/-- One iteration of the uploadAudioChunks loop: skip missing or empty
files, otherwise upload to key `<botUuid>/<filename>`; a failed upload is
caught and logged (uploadOk is the oracle for the uploader's outcome). -/
def uploadChunk (botUuid : String) (uploadOk : String → Bool)
    (c : ChunkFileInfo) : ChunkOutcome :=
  if c.onDisk = false then .missing
  else if c.size = 0 then .empty
  else if uploadOk c.name then .uploaded (botUuid ++ "/" ++ c.name)
  else .uploadFailed

/-- The uploadAudioChunks loop over the batch: every chunk is processed in
order; the try/catch around each upload means no failure escapes the loop. -/
def uploadChunksLoop (botUuid : String) (uploadOk : String → Bool) :
    List ChunkFileInfo → List ChunkOutcome
  | [] => []
  | c :: rest => uploadChunk botUuid uploadOk c :: uploadChunksLoop botUuid uploadOk rest

/-- State read by uploadToS3: the filesUploaded guard and whether the final
audio (.wav) and video (.mp4) artifacts exist locally. -/
structure S3State where
  filesUploaded : Bool
  audioExists : Bool
  videoExists : Bool
deriving Repr, DecidableEq

/-- Observable outcome of uploadToS3: which local files were deleted
(fs.unlinkSync), the filesUploaded flag afterwards, and whether the call
threw (an upload rejection propagates out immediately). -/
structure UploadToS3Outcome where
  deletedAudio : Bool
  deletedVideo : Bool
  filesUploadedAfter : Bool
  errored : Bool
deriving Repr, DecidableEq

/-- uploadToS3: no-op when filesUploaded already holds; otherwise each
existing artifact is uploaded and unlinked only after its upload resolves;
a failed upload throws before the unlink (and before any later artifact). -/
def uploadToS3 (st : S3State) (wavUploadOk mp4UploadOk : Bool) : UploadToS3Outcome :=
  if st.filesUploaded then
    { deletedAudio := false, deletedVideo := false
    , filesUploadedAfter := st.filesUploaded, errored := false }
  else if st.audioExists && !wavUploadOk then
    { deletedAudio := false, deletedVideo := false
    , filesUploadedAfter := false, errored := true }
  else if st.videoExists && !mp4UploadOk then
    { deletedAudio := st.audioExists, deletedVideo := false
    , filesUploadedAfter := false, errored := true }
  else
    { deletedAudio := st.audioExists, deletedVideo := st.videoExists
    , filesUploadedAfter := true, errored := false }

/-! ## C9: stopRecording early return (lines 511-517) -/

/-- The recorder state the stopRecording guard reads and the fields the
call can mutate. -/
structure RecorderState where
  isRecording : Bool
  hasProcess : Bool
  gracePeriodActive : Bool
deriving Repr, DecidableEq

/-- Signals stopRecording may send to the capture subprocess. -/
inductive StopSignal where
  | sigint
  | sigkill
deriving Repr, DecidableEq

/-- The synchronous head of stopRecording: if not isRecording or the
subprocess handle is null, return immediately (no state change, no signal);
otherwise set gracePeriodActive and (after the grace period) send SIGINT. -/
def stopRecordingStep (st : RecorderState) : RecorderState × List StopSignal :=
  if !st.isRecording || !st.hasProcess then (st, [])
  else ({ st with gracePeriodActive := true }, [.sigint])

/-! ## C10: WordsPoster.saveToDatabase (src/unnamed/part_000, lines 27-60) -/

/-- A transcription segment with its millisecond boundaries. -/
structure TranscriptionSegment where
  startTime : ℚ
  endTime : ℚ
deriving Repr, DecidableEq

/-- A provider transcription result (times in seconds within the segment). -/
structure TranscriptionResult where
  text : String
  start_time : ℚ
  end_time : ℚ
deriving Repr, DecidableEq

/-- A word as posted to the database. -/
structure RecognizerWord where
  text : String
  start_time : ℚ
  end_time : ℚ
deriving Repr, DecidableEq

/-- The deduplication key: `${segment.startTime}-${segment.endTime}`. -/
def segmentKey (seg : TranscriptionSegment) : String :=
  toString seg.startTime ++ "-" ++ toString seg.endTime

/-- The word transformation: each result's times shifted by
segment.startTime / 1000 (milliseconds to seconds). -/
def shiftWords (results : List TranscriptionResult) (seg : TranscriptionSegment) :
    List RecognizerWord :=
  results.map fun r =>
    { text := r.text
    , start_time := r.start_time + seg.startTime / 1000
    , end_time := r.end_time + seg.startTime / 1000 }

/-- Outcome of saveToDatabase: the processedSegments set afterwards, the
word list handed to api.postWords (none when the call returned without
posting), and whether the error was rethrown. -/
structure SaveOutcome where
  newProcessed : List String
  attempted : Option (List RecognizerWord)
  errored : Bool
deriving Repr, DecidableEq

/-- WordsPoster.saveToDatabase: skip a segment whose key is already in
processedSegments; otherwise add the key, post the shifted words, and on a
posting failure delete the key again and rethrow (postOk is the oracle for
api.postWords succeeding). -/
def saveToDatabase (processed : List String) (results : List TranscriptionResult)
    (seg : TranscriptionSegment) (postOk : Bool) : SaveOutcome :=
  let key := segmentKey seg
  if key ∈ processed then
    { newProcessed := processed, attempted := none, errored := false }
  else if postOk then
    { newProcessed := key :: processed
    , attempted := some (shiftWords results seg), errored := false }
  else
    { newProcessed := (key :: processed).erase key
    , attempted := some (shiftWords results seg), errored := true }

/-! ## Helper lemmas -/

/-- The reinterpretation yields exactly ⌊chunk length / 4⌋ samples. -/
theorem streamFrameSamples_length : ∀ chunk : List ℕ,
    (streamFrameSamples chunk).length = chunk.length / 4
  | [] => rfl
  | [_] => by simp [streamFrameSamples]
  | [_, _] => by simp [streamFrameSamples]
  | [_, _, _] => by simp [streamFrameSamples]
  | _ :: _ :: _ :: _ :: rest => by
    have ih := streamFrameSamples_length rest
    simp only [streamFrameSamples, List.length_cons, ih]
    omega

/-- The upload loop processes every element of the batch, in order. -/
theorem uploadChunksLoop_append (b : String) (ok : String → Bool)
    (xs ys : List ChunkFileInfo) :
    uploadChunksLoop b ok (xs ++ ys) =
      uploadChunksLoop b ok xs ++ uploadChunksLoop b ok ys := by
  induction xs with
  | nil => rfl
  | cons c rest ih => simp [uploadChunksLoop, ih]

/-- The upload loop emits one outcome per chunk of the batch. -/
theorem uploadChunksLoop_length (b : String) (ok : String → Bool)
    (l : List ChunkFileInfo) :
    (uploadChunksLoop b ok l).length = l.length := by
  induction l with
  | nil => rfl
  | cons c rest ih => simp [uploadChunksLoop, ih]

/-! ## Claim theorems -/

/-- C1: the capture subprocess exit is classified successful (and
post-processing runs) iff the code is 0, or 255 or 143 while the
grace-period flag is set; in every case the recording flag is cleared and
the 'stopped' event is emitted. -/
theorem C1_exit_classification (code : ℤ) (gracePeriodActive : Bool) :
    ((onFFmpegExit code gracePeriodActive).ranPostProcessing = true ↔
      (code = 0 ∨ (gracePeriodActive = true ∧ (code = 255 ∨ code = 143)))) ∧
    (onFFmpegExit code gracePeriodActive).isRecordingAfter = false ∧
    (onFFmpegExit code gracePeriodActive).emittedStopped = true := by
  refine ⟨?_, rfl, rfl⟩
  simp [onFFmpegExit, isSuccessfulExit]

/-- C2: with meetingStartTime = 0 (unset) at post-processing time, a
recording duration over 10000 ms substitutes meetingStartTime = now - 5000
and the pipeline proceeds; a duration of at most 10000 ms raises
BotRemovedTooEarly and aborts post-processing. -/
theorem C2_meeting_time_fallback (sync : SyncResult)
    (recordingStartTime now : ℤ) (videoDuration audioDuration : ℚ) :
    (10000 < now - recordingStartTime →
      makeTrimPlan sync 0 recordingStartTime now videoDuration audioDuration =
        .ok { trimStart := trimStartOf sync.videoTimestamp (now - 5000) recordingStartTime
            , finalDuration := min (videoDuration -
                trimStartOf sync.videoTimestamp (now - 5000) recordingStartTime)
                audioDuration }) ∧
    (now - recordingStartTime ≤ 10000 →
      makeTrimPlan sync 0 recordingStartTime now videoDuration audioDuration =
        .error .BotRemovedTooEarly) := by
  constructor
  · intro h
    simp [makeTrimPlan, resolveMeetingStartTime, h, Except.map]
  · intro h
    have h2 : ¬ (10000 < now - recordingStartTime) := not_lt.mpr h
    simp [makeTrimPlan, resolveMeetingStartTime, h2, Except.map]

/-- C3: with a set meetingStartTime, the trim start equals
videoToneTime + (meetingStartTime - recordingStartTime - 6000) / 1000 and
the retained duration equals min (videoDuration - trimStart) audioDuration,
videoDuration on the raw video and audioDuration on the processed audio. -/
theorem C3_trim_plan_arithmetic (sync : SyncResult)
    (meetingStartTime recordingStartTime now : ℤ)
    (videoDuration audioDuration : ℚ) (h : 0 < meetingStartTime) :
    makeTrimPlan sync meetingStartTime recordingStartTime now videoDuration audioDuration =
      .ok { trimStart := sync.videoTimestamp +
              ((meetingStartTime : ℚ) - (recordingStartTime : ℚ) - 6000) / 1000
          , finalDuration := min (videoDuration - (sync.videoTimestamp +
              ((meetingStartTime : ℚ) - (recordingStartTime : ℚ) - 6000) / 1000))
              audioDuration } := by
  have he : trimStartOf sync.videoTimestamp meetingStartTime recordingStartTime =
      sync.videoTimestamp +
        ((meetingStartTime : ℚ) - (recordingStartTime : ℚ) - 6000) / 1000 := by
    unfold trimStartOf FLASH_SCREEN_SLEEP_TIME
    push_cast
    ring
  simp [makeTrimPlan, resolveMeetingStartTime, h, Except.map, he]

/-- C3 witness: the spec's clean-session scenario evaluated concretely. -/
theorem C3_trim_plan_arithmetic_witness :
    makeTrimPlan ⟨36/5, 141/20⟩ 1010000 1000000 1010000 100 100 =
      .ok { trimStart := 36/5 + ((1010000 : ℚ) - (1000000 : ℚ) - 6000) / 1000
          , finalDuration := min ((100 : ℚ) - (36/5 +
              ((1010000 : ℚ) - (1000000 : ℚ) - 6000) / 1000)) 100 } :=
  C3_trim_plan_arithmetic ⟨36/5, 141/20⟩ 1010000 1000000 1010000 100 100 (by norm_num)

/-- C4: the audio head alignment is a three-way split on
audioPadding = videoToneTime - audioToneTime: positive padding synthesizes a
silence file of exactly that duration (44100 Hz mono pcm_s16le), concatenates
it before the raw audio via the concat demuxer with re-encoding and deletes
the silence file and concat list afterwards; negative padding seeks
|audioPadding| seconds into the raw audio and re-encodes; zero padding
copies the raw audio unchanged. -/
theorem C4_audio_head_alignment (sync : SyncResult) (tempDir raw proc : String) :
    (0 < audioPaddingOf sync →
      alignAudioHead tempDir raw proc (audioPaddingOf sync) =
        [ .runFF (.createSilence 44100 1 "pcm_s16le" (audioPaddingOf sync)
            (tempDir ++ "/silence.wav"))
        , .writeConcatList (tempDir ++ "/concat_list.txt")
            [tempDir ++ "/silence.wav", raw]
        , .runFF (.concatDemux (tempDir ++ "/concat_list.txt") "pcm_s16le" 44100 1 proc)
        , .deleteFile (tempDir ++ "/silence.wav")
        , .deleteFile (tempDir ++ "/concat_list.txt") ]) ∧
    (audioPaddingOf sync < 0 →
      alignAudioHead tempDir raw proc (audioPaddingOf sync) =
        [ .runFF (.seekReencode raw (-(audioPaddingOf sync)) "pcm_s16le" 44100 1
            true proc) ]) ∧
    (audioPaddingOf sync = 0 →
      alignAudioHead tempDir raw proc (audioPaddingOf sync) =
        [ .copyFile raw proc ]) := by
  refine ⟨fun h => ?_, fun h => ?_, fun h => ?_⟩
  · simp [alignAudioHead, addSilencePadding, silencePath, concatListPath,
      AUDIO_SAMPLE_RATE, h]
  · have h1 : ¬ (0 < audioPaddingOf sync) := not_lt.mpr h.le
    simp [alignAudioHead, trimAudioStart, AUDIO_SAMPLE_RATE, h, h1]
  · simp [alignAudioHead, h]

/-- C5 counterexample: the spec's own clean-session numbers (trimStart 11.2 s,
video and audio durations 100 s) give finalDuration 88.8 s, and
trimStart + finalDuration = 100 exceeds
min (videoDuration - trimStart) audioDuration = 88.8. -/
theorem C5_trim_invariant_counterexample :
    makeTrimPlan ⟨36/5, 141/20⟩ 1010000 1000000 1010000 100 100 =
      .ok { trimStart := 56/5, finalDuration := 444/5 } ∧
    ¬ ((56 : ℚ)/5 + 444/5 ≤ min ((100 : ℚ) - 56/5) 100) := by
  constructor
  · simp [makeTrimPlan, resolveMeetingStartTime, Except.map, trimStartOf,
      FLASH_SCREEN_SLEEP_TIME]
    norm_num
  · rw [not_le]
    have : min ((100 : ℚ) - 56/5) 100 = 444/5 := by norm_num
    rw [this]
    norm_num

/-- C5 amended: every trim plan of a successful video-mode run satisfies
trimStart + finalDuration ≤ videoDuration and finalDuration ≤ audioDuration. -/
theorem C5_trim_invariant_amended (sync : SyncResult)
    (meetingStartTime recordingStartTime now : ℤ)
    (videoDuration audioDuration : ℚ) (p : TrimPlan)
    (h : makeTrimPlan sync meetingStartTime recordingStartTime now
        videoDuration audioDuration = .ok p) :
    p.trimStart + p.finalDuration ≤ videoDuration ∧
    p.finalDuration ≤ audioDuration := by
  unfold makeTrimPlan at h
  cases hres : resolveMeetingStartTime meetingStartTime recordingStartTime now with
  | error e =>
    rw [hres] at h
    simp [Except.map] at h
  | ok m =>
    rw [hres] at h
    simp only [Except.map, Except.ok.injEq] at h
    subst h
    constructor
    · have hm := min_le_left
        (videoDuration - trimStartOf sync.videoTimestamp m recordingStartTime)
        audioDuration
      simp only
      linarith
    · exact min_le_right _ _

/-- C5 amended witness: the amended invariant evaluated on the
counterexample's concrete trim plan. -/
theorem C5_trim_invariant_amended_witness :
    (56 : ℚ)/5 + 444/5 ≤ 100 ∧ (444 : ℚ)/5 ≤ 100 :=
  C5_trim_invariant_amended ⟨36/5, 141/20⟩ 1010000 1000000 1010000 100 100
    ⟨56/5, 444/5⟩ (by
      simp [makeTrimPlan, resolveMeetingStartTime, Except.map, trimStartOf,
        FLASH_SCREEN_SLEEP_TIME]
      norm_num)

/-- C6 counterexample: a 5-byte chunk is reinterpreted into one sample and
its trailing byte is dropped — the handler enforces no multiple-of-4 chunk
length, so the reinterpretation is not total. -/
theorem C6_stream_fanout_counterexample :
    streamFrameSamples [0, 0, 0, 0, 7] = [(0, 0, 0, 0)] ∧
    streamDroppedBytes ([0, 0, 0, 0, 7] : List ℕ).length ≠ 0 := by
  constructor
  · rfl
  · decide

/-- C6 amended: for every chunk delivered on the subprocess stdout the
handler hands ⌊len / 4⌋ samples to the streaming sink; when the chunk
length is a multiple of 4 this is exactly len / 4 and no bytes are dropped,
but chunk lengths are not enforced to be multiples of 4 and the trailing
len mod 4 bytes of an unaligned chunk are dropped. -/
theorem C6_stream_fanout_amended (chunk : List ℕ) :
    (streamFrameSamples chunk).length = chunk.length / 4 ∧
    4 * (streamFrameSamples chunk).length + streamDroppedBytes chunk.length =
      chunk.length ∧
    (chunk.length % 4 = 0 → streamDroppedBytes chunk.length = 0) := by
  refine ⟨streamFrameSamples_length chunk, ?_, fun h => h⟩
  rw [streamFrameSamples_length chunk]
  unfold streamDroppedBytes
  omega

/-- C7: chunks are created only under the transcription provider flag; the
segment time is min(totalDuration, 3600), the file pattern is
`<botId>-%d.wav`, and segmenting a positive duration d this way yields
⌈d / 3600⌉ chunks. -/
theorem C7_chunking (flag : Bool) (d : ℚ) (uuid : String) :
    (flag = false → createAudioChunks flag d uuid = none) ∧
    (flag = true → createAudioChunks flag d uuid =
      some { segmentTime := min d 3600
           , filePattern := uuid ++ "-%d.wav"
           , codec := "pcm_s16le", sampleRate := 44100, channels := 1 }) ∧
    (0 < d → segmentCount d (min d 3600) = ⌈d / 3600⌉) := by
  refine ⟨fun h => ?_, fun h => ?_, fun hd => ?_⟩
  · simp [createAudioChunks, h]
  · simp [createAudioChunks, TRANSCRIPTION_CHUNK_DURATION, AUDIO_SAMPLE_RATE, h]
  · rcases le_or_lt d 3600 with hle | hlt
    · rw [min_eq_left hle]
      unfold segmentCount
      rw [div_self (ne_of_gt hd), Int.ceil_one]
      symm
      rw [Int.ceil_eq_iff]
      constructor
      · push_cast
        norm_num
        positivity
      · push_cast
        rw [div_le_one (by norm_num : (0:ℚ) < 3600)]
        exact hle
    · rw [min_eq_right hlt.le]
      rfl

/-- C8: a failed chunk upload is caught and the loop continues through the
whole batch (one outcome per chunk, in order, nothing aborted), and the
final .wav and .mp4 local files are deleted only when their own upload
succeeded, so a final-artifact upload failure retains the local file. -/
theorem C8_upload_error_policy (b : String) (ok : String → Bool)
    (pre post : List ChunkFileInfo) (c : ChunkFileInfo)
    (st : S3State) (wavOk mp4Ok : Bool) :
    uploadChunksLoop b ok (pre ++ c :: post) =
      uploadChunksLoop b ok pre ++
        uploadChunk b ok c :: uploadChunksLoop b ok post ∧
    (uploadChunksLoop b ok (pre ++ c :: post)).length =
      pre.length + 1 + post.length ∧
    ((uploadToS3 st wavOk mp4Ok).deletedAudio = true → wavOk = true) ∧
    ((uploadToS3 st wavOk mp4Ok).deletedVideo = true → mp4Ok = true) := by
  refine ⟨?_, ?_, ?_, ?_⟩
  · rw [uploadChunksLoop_append]
    rfl
  · rw [uploadChunksLoop_length]
    simp
    omega
  · unfold uploadToS3
    split_ifs with h1 h2 h3 <;> simp_all
  · unfold uploadToS3
    split_ifs with h1 h2 h3 <;> simp_all

/-- C9: stopRecording on a session that is not recording or has no capture
subprocess returns immediately: state unchanged, no grace-period flag, no
signal sent. -/
theorem C9_stop_idempotent_nonrunning (st : RecorderState)
    (h : st.isRecording = false ∨ st.hasProcess = false) :
    stopRecordingStep st = (st, []) := by
  unfold stopRecordingStep
  rcases h with h | h <;> simp [h]

/-- C9 witness: a fully idle session. -/
theorem C9_stop_idempotent_nonrunning_witness :
    stopRecordingStep ⟨false, false, false⟩ = (⟨false, false, false⟩, []) :=
  C9_stop_idempotent_nonrunning ⟨false, false, false⟩ (Or.inl rfl)

/-- C10: saveToDatabase skips a segment whose key is already processed;
otherwise it records the key and posts the words shifted by
segment.startTime / 1000, and on a posting failure it removes the key again
(processed set unchanged) and rethrows, so a retry is not skipped. -/
theorem C10_word_poster_dedup (processed : List String)
    (results : List TranscriptionResult) (seg : TranscriptionSegment)
    (postOk : Bool) :
    (segmentKey seg ∈ processed →
      saveToDatabase processed results seg postOk =
        { newProcessed := processed, attempted := none, errored := false }) ∧
    (segmentKey seg ∉ processed → postOk = true →
      saveToDatabase processed results seg postOk =
        { newProcessed := segmentKey seg :: processed
        , attempted := some (results.map fun r =>
            { text := r.text
            , start_time := r.start_time + seg.startTime / 1000
            , end_time := r.end_time + seg.startTime / 1000 })
        , errored := false }) ∧
    (segmentKey seg ∉ processed → postOk = false →
      saveToDatabase processed results seg postOk =
        { newProcessed := processed
        , attempted := some (shiftWords results seg), errored := true }) := by
  refine ⟨fun h => ?_, fun h hp => ?_, fun h hp => ?_⟩
  · simp [saveToDatabase, h]
  · simp [saveToDatabase, shiftWords, h, hp]
  · simp [saveToDatabase, h, hp, List.erase_cons_head]

end MeetTeamsBot
